import Mathlib

/-!
Shallow embedding of the MCP-FACEBOOK-SERVER core in Lean 4, together with
theorems checking the natural-language specification against the code.

Conventions of the embedding:
- TypeScript exceptions are modelled by explicit outcome types
  (`ToolOutcome`, `Except`, `CallResult`); a Lean function that is total
  into a response type models "never throws past this boundary".
- JavaScript truthiness of an optional string or number is modelled by
  explicit predicates (`strTruthy`, `natTruthy`, `intTruthy`).
- `Date.now()` (epoch milliseconds) is passed in as an explicit `now : Int`.
- The network is modelled by passing in each fetch's outcome explicitly.
-/

namespace MCPFB

/-! ## Dispatcher (src/mcp.ts) -/

/-- Request envelope: `{ id, tool, params? }` from src/mcp.ts. -/
structure MCPRequestEnvelope (α : Type) where
  id : String
  tool : String
  params : Option α
deriving Repr, DecidableEq

inductive Status where
  | ok
  | error
deriving Repr, DecidableEq

/-- The `error` field of a response envelope: `{ code, message, details? }`. -/
structure ErrorInfo (α : Type) where
  code : String
  message : String
  details : Option α
deriving Repr, DecidableEq

/-- Response envelope: `{ id, status, result?, error? }` from src/mcp.ts. -/
structure MCPResponseEnvelope (α : Type) where
  id : String
  status : Status
  result : Option α
  error : Option (ErrorInfo α)
deriving Repr, DecidableEq

/-- Outcome of running a tool handler: the promise resolves with a result,
rejects with a `ToolError` (code, message, optional details), or rejects
with any other exception. -/
inductive ToolOutcome (α : Type) where
  | resolves (result : α)
  | throwsToolError (code : String) (message : String) (details : Option α)
  | throwsOther
deriving Repr, DecidableEq

/-- A registered tool is modelled by what its `run(params, ctx)` does on the
given params. The registry is a partial map from tool name to handler. -/
def ToolRegistry (α : Type) : Type := String → Option (Option α → ToolOutcome α)

/-- `dispatchTool` from src/mcp.ts lines 69-119: looks up the tool; absent
tool yields a `not_found` error envelope; a resolving handler yields an ok
envelope with the result; a `ToolError` is copied verbatim; any other
exception yields the fixed `internal_error` envelope. Total: models that
`dispatchTool` never throws past its boundary. -/
def dispatchTool {α : Type} (registry : ToolRegistry α) (request : MCPRequestEnvelope α) :
    MCPResponseEnvelope α :=
  match registry request.tool with
  | none =>
    { id := request.id
      status := Status.error
      result := none
      error := some { code := "not_found"
                      message := "Unknown tool: " ++ request.tool
                      details := none } }
  | some run =>
    match run request.params with
    | ToolOutcome.resolves r =>
      { id := request.id, status := Status.ok, result := some r, error := none }
    | ToolOutcome.throwsToolError c m d =>
      { id := request.id
        status := Status.error
        result := none
        error := some { code := c, message := m, details := d } }
    | ToolOutcome.throwsOther =>
      { id := request.id
        status := Status.error
        result := none
        error := some { code := "internal_error"
                        message := "Unexpected error executing tool."
                        details := none } }

/-! ## Upstream Graph client (src/fb/graph.ts) -/

/-- The `error` object of a Graph error body (src/fb/types.ts,
`GraphErrorResponse.error`); fields that `extractGraphError` reads.
Optional because the parsed JSON may lack them (`err?.`). -/
structure GraphErrObj where
  message : Option String
  code : Option Int
  is_transient : Option Bool
deriving Repr, DecidableEq

/-- A parsed Graph error body; `error` may be absent (`body?.error`). -/
structure GraphErrorResponse where
  error : Option GraphErrObj
deriving Repr, DecidableEq

/-- `GraphApiError` from src/fb/graph.ts lines 17-26. -/
structure GraphApiError where
  message : String
  status : Nat
  body : Option GraphErrorResponse
  retryable : Bool
deriving Repr, DecidableEq

def MAX_RETRIES : Nat := 3

def GRAPH_TIMEOUT_MS : Nat := 30000

/-- JS truthiness of `err?.is_transient` (absent or false are falsy). -/
def transientTruthy : Option Bool → Bool
  | some b => b
  | none => false

/-- `extractGraphError` from src/fb/graph.ts lines 143-148:
`retryable = Boolean(err?.is_transient || status >= 500 || err?.code === 1
|| err?.code === 2 || err?.code === 4)`, message defaulted. -/
def extractGraphError (status : Nat) (body : GraphErrorResponse) : GraphApiError :=
  let err := body.error
  let retryable :=
    transientTruthy (err.bind fun e => e.is_transient) ||
    decide (500 ≤ status) ||
    decide ((err.bind fun e => e.code) = some 1) ||
    decide ((err.bind fun e => e.code) = some 2) ||
    decide ((err.bind fun e => e.code) = some 4)
  { message := ((err.bind fun e => e.message).getD "Graph API error")
    status := status
    body := some body
    retryable := retryable }

/-- What one `fetch` attempt inside `callGraph` does: a 2xx response, a
non-ok response with a status and parsed body, an abort by the 30s
timeout (`DOMException` named `AbortError`), or any other exception. -/
inductive FetchOutcome where
  | ok
  | httpError (status : Nat) (body : GraphErrorResponse)
  | abortTimeout
  | otherError
deriving Repr, DecidableEq

/-- The observable outcome of `callGraph`: the parsed value is returned,
a `GraphApiError` is thrown, or a non-Graph exception is rethrown. -/
inductive CallResult where
  | success
  | graphError (e : GraphApiError)
  | otherFailure
deriving Repr, DecidableEq

/-- A trace of one `callGraph` run: how many attempts ran, the backoff
delays (in ms, in order, each inserted before the following attempt), and
the final outcome. -/
structure CallTrace where
  attempts : Nat
  delays : List Nat
  result : CallResult
deriving Repr, DecidableEq

/-- The `for (let attempt = 1; attempt <= MAX_RETRIES; attempt++)` loop of
`callGraph` (src/fb/graph.ts lines 69-140). `fetchAt a` is the outcome of
the fetch on attempt `a`; `rem` is the remaining loop iterations
(`MAX_RETRIES - attempt + 1` at entry); `ds` accumulates delays and
`lastErr` mirrors the `lastError` variable. On `!response.ok` the
extracted error is thrown unless retryable with attempts left, in which
case `delay(2 ** attempt * 200)` runs and the loop continues; an
`AbortError` builds a timeout `GraphApiError` whose `retryable` flag is
`attempt < MAX_RETRIES`; any other exception is rethrown. Falling out of
the loop throws `lastError` if set (lines 137-140). -/
def callGraphGo (fetchAt : Nat → FetchOutcome) :
    Nat → Nat → List Nat → Option GraphApiError → CallTrace
  | attempt, 0, ds, lastErr =>
    { attempts := attempt - 1
      delays := ds
      result := match lastErr with
        | some e => CallResult.graphError e
        | none => CallResult.otherFailure }
  | attempt, rem + 1, ds, lastErr =>
    match fetchAt attempt with
    | FetchOutcome.ok =>
      { attempts := attempt, delays := ds, result := CallResult.success }
    | FetchOutcome.httpError status body =>
      let graphError := extractGraphError status body
      if graphError.retryable && decide (attempt < MAX_RETRIES) then
        callGraphGo fetchAt (attempt + 1) rem (ds ++ [2 ^ attempt * 200]) lastErr
      else
        { attempts := attempt, delays := ds, result := CallResult.graphError graphError }
    | FetchOutcome.abortTimeout =>
      let graphError : GraphApiError :=
        { message := "Graph API request timed out"
          status := 504
          body := none
          retryable := decide (attempt < MAX_RETRIES) }
      if graphError.retryable && decide (attempt < MAX_RETRIES) then
        callGraphGo fetchAt (attempt + 1) rem (ds ++ [2 ^ attempt * 200]) (some graphError)
      else
        { attempts := attempt, delays := ds, result := CallResult.graphError graphError }
    | FetchOutcome.otherError =>
      { attempts := attempt, delays := ds, result := CallResult.otherFailure }

/-- `callGraph` as observed through its attempt/delay/outcome trace:
start at attempt 1 with the full retry budget. -/
def callGraph (fetchAt : Nat → FetchOutcome) : CallTrace :=
  callGraphGo fetchAt 1 MAX_RETRIES [] none

/-! ## Token storage (src/unnamed/part_005, storage module) -/

/-- `OAuthStateRecord` from the types module. -/
structure OAuthStateRecord where
  codeVerifier : String
  createdAt : Int
  redirectUri : String
deriving Repr, DecidableEq

/-- The KV namespace as a map from key to stored record (TTL-based
eviction is external to the claims modelled here). -/
def KVStore (β : Type) : Type := String → Option β

def kvPut {β : Type} (kv : KVStore β) (key : String) (v : β) : KVStore β :=
  fun k => if k = key then some v else kv k

def kvDelete {β : Type} (kv : KVStore β) (key : String) : KVStore β :=
  fun k => if k = key then none else kv k

/-- `storeOAuthState`: `TOKENS_KV.put('oauth:' + state, record, ttl 600)`. -/
def storeOAuthState (kv : KVStore OAuthStateRecord) (state : String)
    (record : OAuthStateRecord) : KVStore OAuthStateRecord :=
  kvPut kv ("oauth:" ++ state) record

/-- `consumeOAuthState` from the storage module lines 73-80: get the record
under `oauth:<state>`; if present delete it; return the record (or null).
Returns the record together with the updated store. -/
def consumeOAuthState (kv : KVStore OAuthStateRecord) (state : String) :
    Option OAuthStateRecord × KVStore OAuthStateRecord :=
  let key := "oauth:" ++ state
  match kv key with
  | some record => (some record, kvDelete kv key)
  | none => (none, kv)

/-- `PageTokenRecord` from the types module; `expiresAt` is epoch seconds,
`obtainedAt` epoch milliseconds. -/
structure PageTokenRecord where
  pageId : String
  accessToken : String
  pageName : Option String
  expiresAt : Option Int
  obtainedAt : Int
deriving Repr, DecidableEq

/-- JS truthiness of an optional number (`record.expiresAt ?`): absent and
zero are falsy. -/
def intTruthy : Option Int → Bool
  | some n => n ≠ 0
  | none => false

/-- The expiry options `savePageToken` passes to `TOKENS_KV.put`
(storage module lines 57-63): absolute `expiration = floor(expiresAt)`
when `expiresAt` is truthy, else a 24-hour `expirationTtl`. -/
structure PutExpiryOptions where
  expiration : Option Int
  expirationTtl : Option Nat
deriving Repr, DecidableEq

def savePageTokenOptions (record : PageTokenRecord) : PutExpiryOptions :=
  { expiration := if intTruthy record.expiresAt then record.expiresAt else none
    expirationTtl := if intTruthy record.expiresAt then none else some (24 * 60 * 60) }

/-! ## Page token helper (src/tools/helpers.ts) -/

/-- One entry of the `/me/accounts` response (`AccountsResponse.data`). -/
structure PageEntry where
  id : String
  name : String
  access_token : String
deriving Repr, DecidableEq

/-- A `ToolError` as raised by the helpers: code and message. -/
structure ToolErr where
  code : String
  message : String
deriving Repr, DecidableEq

deriving instance DecidableEq for Except

/-- Observable trace of one `ensurePageAccessToken` call: how many
managed-pages fetches ran, what record (if any) was saved, and the
returned record or thrown `ToolError`. -/
structure EnsureTrace where
  fetches : Nat
  saved : Option PageTokenRecord
  result : Except ToolErr PageTokenRecord
deriving Repr, DecidableEq

/-- `ensurePageAccessToken` from src/tools/helpers.ts lines 22-46. The
cache lookup result `cached`, the clock `now` (epoch ms) and the
managed-pages list `pages` that a fetch would return are passed in
explicitly. The cached record is returned when
`cached && (!cached.expiresAt || cached.expiresAt * 1000 > Date.now() + 60_000)`;
otherwise one fetch runs, a missing page id throws `not_found`, and
otherwise a fresh record (without `expiresAt`) is saved and returned. -/
def ensurePageAccessToken (cached : Option PageTokenRecord) (now : Int)
    (pages : List PageEntry) (pageId : String) : EnsureTrace :=
  match cached with
  | some c =>
    if (!intTruthy c.expiresAt) || decide (c.expiresAt.getD 0 * 1000 > now + 60000) then
      { fetches := 0, saved := none, result := Except.ok c }
    else
      ensureFetch now pages pageId
  | none => ensureFetch now pages pageId
where
  ensureFetch (now : Int) (pages : List PageEntry) (pageId : String) : EnsureTrace :=
    match pages.find? (fun item => item.id = pageId) with
    | none =>
      { fetches := 1
        saved := none
        result := Except.error
          { code := "not_found"
            message := "The requested Page is not managed by the authorized user." } }
    | some page =>
      let record : PageTokenRecord :=
        { pageId := page.id
          pageName := some page.name
          accessToken := page.access_token
          expiresAt := none
          obtainedAt := now }
      { fetches := 1, saved := some record, result := Except.ok record }

/-! ## OAuth token exchange (src/fb/oauth.ts) -/

/-- `OAuthTokenResponse` as parsed from the token endpoint; every field is
optional at runtime (the parsed JSON may lack them, and the code guards
`if (!accessToken)` / `if (data.expires_in)`). -/
structure OAuthTokenResponse where
  access_token : Option String
  token_type : Option String
  expires_in : Option Int
deriving Repr, DecidableEq

/-- An HTTP response of the token endpoint: the `response.ok` flag, the
status code, and the parsed JSON body. -/
structure TokenHttpResponse where
  ok : Bool
  status : Nat
  data : OAuthTokenResponse
deriving Repr, DecidableEq

/-- `TokenExchangeResult` from src/fb/oauth.ts lines 52-56 (`tokenType` is
declared `string` but flows through from the optional response field). -/
structure TokenExchangeResult where
  accessToken : String
  tokenType : Option String
  expiresAt : Option Int
deriving Repr, DecidableEq

/-- JS truthiness of an optional string (`!accessToken`): absent and empty
are falsy. -/
def strTruthy : Option String → Bool
  | some s => s ≠ ""
  | none => false

/-- `expiresAt = Math.floor(Date.now() / 1000) + data.expires_in` when
`data.expires_in` is truthy, else left undefined (both exchange
functions share this computation). -/
def expiresAtOf (now : Int) (data : OAuthTokenResponse) : Option Int :=
  if intTruthy data.expires_in then some (now / 1000 + data.expires_in.getD 0) else none

/-- `exchangeLongLivedToken` from src/fb/oauth.ts lines 120-159, as a
function of the upgrade endpoint's response: a non-ok response or a
missing `access_token` throws; otherwise the long-lived result is built. -/
def exchangeLongLivedToken (now : Int) (response : TokenHttpResponse) :
    Except String TokenExchangeResult :=
  if !response.ok then
    Except.error "Could not exchange token"
  else
    let data := response.data
    let expiresAt := expiresAtOf now data
    if !strTruthy data.access_token then
      Except.error "Long-lived token response missing access_token"
    else
      Except.ok { accessToken := data.access_token.getD ""
                  tokenType := data.token_type
                  expiresAt := expiresAt }

/-- `exchangeCodeForToken` from src/fb/oauth.ts lines 58-118, as a function
of the code-exchange response and (when `env.FACEBOOK_APP_SECRET` is
truthy) the upgrade call's response. A non-ok exchange response throws
`Token exchange failed`; a missing `access_token` throws; otherwise, when
the app secret is present, one opportunistic `exchangeLongLivedToken` call
runs inside try/catch: on success its fields overwrite the short-lived
ones (`expiresAt` only when defined, via `??`), on failure the exception
is swallowed and the short-lived values are returned. -/
def exchangeCodeForToken (hasAppSecret : Bool) (now : Int)
    (exchangeResponse : TokenHttpResponse) (upgradeResponse : TokenHttpResponse) :
    Except String TokenExchangeResult :=
  if !exchangeResponse.ok then
    Except.error ("Token exchange failed (" ++ toString exchangeResponse.status ++ ")")
  else
    let data := exchangeResponse.data
    let expiresAt := expiresAtOf now data
    let accessToken := data.access_token
    let tokenType := data.token_type
    if !strTruthy accessToken then
      Except.error "Token exchange response missing access_token"
    else if hasAppSecret then
      match exchangeLongLivedToken now upgradeResponse with
      | Except.ok longLived =>
        Except.ok { accessToken := longLived.accessToken
                    tokenType := longLived.tokenType
                    expiresAt := match longLived.expiresAt with
                      | some e => some e
                      | none => expiresAt }
      | Except.error _ =>
        Except.ok { accessToken := accessToken.getD ""
                    tokenType := tokenType
                    expiresAt := expiresAt }
    else
      Except.ok { accessToken := accessToken.getD ""
                  tokenType := tokenType
                  expiresAt := expiresAt }

/-! ## SSE session (src/sse.ts) -/

/-- Wire framing of `send(event, data)` (src/sse.ts lines 24-36): an
optional `event:` line, one `data:` line per payload line, and a blank
terminator. `data` is taken already stringified. -/
def frameEvent (event : String) (data : String) : String :=
  (if event ≠ "" then "event: " ++ event ++ "\n" else "") ++
  String.join ((data.splitOn "\n").map (fun line => "data: " ++ line ++ "\n")) ++
  "\n"

/-- Closure state of one `createSSESession` session: the `closed` flag,
the frames enqueued to the stream controller, how many times the
registered `onClose` cleanup has run, and whether `controller.close()`
was called. -/
structure SSEState where
  closed : Bool
  frames : List String
  cleanups : Nat
  streamClosed : Bool
deriving Repr, DecidableEq

/-- The fresh state returned by `createSSESession`. -/
def initialSSEState : SSEState :=
  { closed := false, frames := [], cleanups := 0, streamClosed := false }

/-- The operations that can hit a session: `session.send`,
`session.comment`, `session.close`, and the stream's `cancel` callback
(remote disconnect). -/
inductive SSEOp where
  | send (event : String) (data : String)
  | comment (text : String)
  | close
  | cancel
deriving Repr, DecidableEq

/-- One operation against the session closure (src/sse.ts lines 12-48):
`cancel` runs cleanup only `if (!closed)`; `send`/`comment` return early
when closed, else enqueue a frame; `close` returns early when closed,
else sets `closed`, runs cleanup, and closes the controller. -/
def sseStep (st : SSEState) (op : SSEOp) : SSEState :=
  match op with
  | SSEOp.send event data =>
    if st.closed then st
    else { st with frames := st.frames ++ [frameEvent event data] }
  | SSEOp.comment text =>
    if st.closed then st
    else { st with frames := st.frames ++ [": " ++ text ++ "\n\n"] }
  | SSEOp.close =>
    if st.closed then st
    else { st with closed := true, cleanups := st.cleanups + 1, streamClosed := true }
  | SSEOp.cancel =>
    if !st.closed then { st with closed := true, cleanups := st.cleanups + 1 }
    else st

/-- Run a whole interleaving of operations against a fresh session. -/
def sseRun (ops : List SSEOp) : SSEState :=
  List.foldl sseStep initialSSEState ops

/-- Whether an operation is a close or a cancellation. -/
def isCloseOrCancel : SSEOp → Bool
  | SSEOp.close => true
  | SSEOp.cancel => true
  | _ => false

/-! ## Auxiliary concrete objects used by the theorems -/

/-- The delays `delay(2 ** attempt * 200)` accumulated after the first `n`
attempts all failed retryably: `[2^1*200, ..., 2^n*200]`. -/
def backoffSchedule : Nat → List Nat
  | 0 => []
  | n + 1 => backoffSchedule n ++ [2 ^ (n + 1) * 200]

/-- Upstream that answers HTTP 500 with an empty body on every attempt. -/
def always500 : Nat → FetchOutcome :=
  fun _ => FetchOutcome.httpError 500 { error := none }

/-- Upstream on which every attempt is aborted by the 30s timeout. -/
def allTimeout : Nat → FetchOutcome :=
  fun _ => FetchOutcome.abortTimeout

/-- A small concrete registry over `Nat` results: one tool per handler
behaviour, used to exercise `dispatchTool` on concrete requests. -/
def demoRegistry : ToolRegistry Nat := fun name =>
  if name = "echo" then some (fun p => ToolOutcome.resolves (p.getD 0))
  else if name = "boom" then
    some (fun _ => ToolOutcome.throwsToolError "auth_required" "No user." (some 5))
  else if name = "crash" then some (fun _ => ToolOutcome.throwsOther)
  else none

/-- A cached page record whose `expiresAt` is present but zero. -/
def staleZeroRecord : PageTokenRecord :=
  { pageId := "p1", accessToken := "tok", pageName := none,
    expiresAt := some 0, obtainedAt := 0 }

/-! ## Theorems -/

/-- Claim C1: for every request envelope, `dispatchTool` returns a
structured response echoing the request id and never raises past its
boundary (modelled by totality into `MCPResponseEnvelope`): a missing
handler yields a `not_found` error envelope; a resolving handler yields
`{id, status: ok, result}`; a thrown `ToolError` has its code, message and
details copied verbatim; any other exception yields the fixed
`internal_error` envelope with no detail from the exception. -/
theorem dispatchTool_envelope {α : Type} (registry : ToolRegistry α)
    (request : MCPRequestEnvelope α) :
    (dispatchTool registry request).id = request.id ∧
    (registry request.tool = none →
      dispatchTool registry request =
        { id := request.id, status := Status.error, result := none,
          error := some { code := "not_found",
                          message := "Unknown tool: " ++ request.tool,
                          details := none } }) ∧
    (∀ run r, registry request.tool = some run →
      run request.params = ToolOutcome.resolves r →
      dispatchTool registry request =
        { id := request.id, status := Status.ok, result := some r, error := none }) ∧
    (∀ run c m d, registry request.tool = some run →
      run request.params = ToolOutcome.throwsToolError c m d →
      dispatchTool registry request =
        { id := request.id, status := Status.error, result := none,
          error := some { code := c, message := m, details := d } }) ∧
    (∀ run, registry request.tool = some run →
      run request.params = ToolOutcome.throwsOther →
      dispatchTool registry request =
        { id := request.id, status := Status.error, result := none,
          error := some { code := "internal_error",
                          message := "Unexpected error executing tool.",
                          details := none } }) := by
  refine ⟨?_, ?_, ?_, ?_, ?_⟩
  · rcases hreg : registry request.tool with _ | run
    · simp [dispatchTool, hreg]
    · rcases hrun : run request.params with r | ⟨c, m, d⟩ | _ <;>
        simp [dispatchTool, hreg, hrun]
  · intro hreg
    simp [dispatchTool, hreg]
  · intro run r hreg hrun
    simp [dispatchTool, hreg, hrun]
  · intro run c m d hreg hrun
    simp [dispatchTool, hreg, hrun]
  · intro run hreg hrun
    simp [dispatchTool, hreg, hrun]

/-- Witness for C1: concrete dispatches through `demoRegistry` covering the
ok, `ToolError`, `internal_error` and `not_found` paths. -/
theorem dispatchTool_envelope_witness :
    dispatchTool demoRegistry { id := "r0", tool := "echo", params := some 7 } =
      { id := "r0", status := Status.ok, result := some 7, error := none } ∧
    dispatchTool demoRegistry { id := "rb", tool := "boom", params := none } =
      { id := "rb", status := Status.error, result := none,
        error := some { code := "auth_required", message := "No user.",
                        details := some 5 } } ∧
    dispatchTool demoRegistry { id := "rc", tool := "crash", params := none } =
      { id := "rc", status := Status.error, result := none,
        error := some { code := "internal_error",
                        message := "Unexpected error executing tool.",
                        details := none } } ∧
    dispatchTool demoRegistry { id := "r1", tool := "unknown.tool", params := none } =
      { id := "r1", status := Status.error, result := none,
        error := some { code := "not_found",
                        message := "Unknown tool: unknown.tool",
                        details := none } } := by
  refine ⟨?_, ?_, ?_, ?_⟩
  · exact (dispatchTool_envelope demoRegistry
      { id := "r0", tool := "echo", params := some 7 }).2.2.1 _ 7 rfl rfl
  · exact (dispatchTool_envelope demoRegistry
      { id := "rb", tool := "boom", params := none }).2.2.2.1 _ _ _ _ rfl rfl
  · exact (dispatchTool_envelope demoRegistry
      { id := "rc", tool := "crash", params := none }).2.2.2.2 _ rfl rfl
  · exact (dispatchTool_envelope demoRegistry
      { id := "r1", tool := "unknown.tool", params := none }).2.1 rfl

/-- Helper: every reachable state of the `callGraph` loop keeps the delay
list equal to the deterministic backoff schedule for the attempts already
failed, and never exceeds the attempt budget. The hypotheses capture the
loop entry relation between `attempt` and the remaining iterations. -/
theorem callGraphGo_schedule (fetchAt : Nat → FetchOutcome) (rem : Nat) :
    ∀ attempt ds lastErr,
      1 ≤ attempt → attempt ≤ MAX_RETRIES → attempt + rem = MAX_RETRIES + 1 →
      ds = backoffSchedule (attempt - 1) →
      (callGraphGo fetchAt attempt rem ds lastErr).attempts ≤ MAX_RETRIES ∧
      (callGraphGo fetchAt attempt rem ds lastErr).delays =
        backoffSchedule ((callGraphGo fetchAt attempt rem ds lastErr).attempts - 1) := by
  induction rem with
  | zero =>
    intro attempt ds lastErr h1 h2 h3 hds
    exact absurd h3 (by unfold MAX_RETRIES at h2 ⊢; omega)
  | succ rem ih =>
    intro attempt ds lastErr h1 h2 h3 hds
    obtain ⟨m, rfl⟩ : ∃ m, attempt = m + 1 := ⟨attempt - 1, by omega⟩
    rcases hf : fetchAt (m + 1) with _ | ⟨status, body⟩ | _ | _
    · simp only [callGraphGo, hf]
      exact ⟨h2, hds⟩
    · simp only [callGraphGo, hf]
      split
      case isTrue hcond =>
        have hlt : m + 1 < MAX_RETRIES := by
          have := (Bool.and_eq_true _ _).mp hcond
          exact of_decide_eq_true this.2
        refine ih (m + 2) _ lastErr (by omega) (by omega) (by omega) ?_
        simp [hds, backoffSchedule]
      case isFalse hcond =>
        exact ⟨h2, hds⟩
    · simp only [callGraphGo, hf]
      split
      case isTrue hcond =>
        have hlt : m + 1 < MAX_RETRIES := by
          have := (Bool.and_eq_true _ _).mp hcond
          exact of_decide_eq_true this.2
        refine ih (m + 2) _ _ (by omega) (by omega) (by omega) ?_
        simp [hds, backoffSchedule]
      case isFalse hcond =>
        exact ⟨h2, hds⟩
    · simp only [callGraphGo, hf]
      exact ⟨h2, hds⟩

/-- Counterexample to C2 as stated: with an upstream that always answers
HTTP 500, the delays actually inserted are 400ms before the second attempt
and 800ms before the third — not the 200ms/400ms the claim asserts. -/
theorem callGraph_backoff_counterexample :
    (callGraph always500).attempts = 3 ∧
    (callGraph always500).delays = [400, 800] ∧
    (callGraph always500).delays ≠ [200, 400] := by
  refine ⟨rfl, rfl, by decide⟩

/-- Helper: the backoff schedule for `n` failed attempts has `n` entries. -/
theorem backoffSchedule_length (n : Nat) : (backoffSchedule n).length = n := by
  induction n with
  | zero => rfl
  | succ n ih => simp [backoffSchedule, ih]

/-- Helper: entry `k` of the backoff schedule (the delay inserted before
attempt `k + 2`) is `2 ^ (k + 1) * 200` milliseconds. -/
theorem backoffSchedule_getElem (n : Nat) :
    ∀ k d, (backoffSchedule n)[k]? = some d → d = 2 ^ (k + 1) * 200 := by
  induction n with
  | zero => intro k d hd; simp [backoffSchedule] at hd
  | succ n ih =>
    intro k d hd
    rw [backoffSchedule] at hd
    rcases Nat.lt_or_ge k (backoffSchedule n).length with hk | hk
    · rw [List.getElem?_append_left hk] at hd
      exact ih k d hd
    · rw [List.getElem?_append_right hk] at hd
      have hlen := backoffSchedule_length n
      rcases Nat.lt_or_ge (k - (backoffSchedule n).length) 1 with h1 | h1

      · have hk0 : k - (backoffSchedule n).length = 0 := by omega
        have hkn : k = n := by omega
        rw [hk0] at hd
        have hd' : 2 ^ (n + 1) * 200 = d := Option.some.inj hd
        subst hkn
        exact hd'.symm
      · have hnone : ([2 ^ (n + 1) * 200] : List Nat)[k - (backoffSchedule n).length]? = none := by
          apply List.getElem?_eq_none
          simpa using h1
        rw [hnone] at hd
        cases hd

/-- Claim C2 (amended): for every sequence of attempt outcomes,
`callGraph` performs at most 3 attempts, the delay list is exactly the
doubling schedule for the attempts that preceded a retry (no delay before
the first attempt, one delay before each subsequent attempt), and the
delay inserted before attempt `k+1` is `2^k * 200` ms — i.e. 400ms before
the second attempt and 800ms before the third. -/
theorem callGraph_backoff_schedule (fetchAt : Nat → FetchOutcome) :
    (callGraph fetchAt).attempts ≤ MAX_RETRIES ∧
    (callGraph fetchAt).delays =
      backoffSchedule ((callGraph fetchAt).attempts - 1) ∧
    (callGraph fetchAt).delays.length = (callGraph fetchAt).attempts - 1 ∧
    (∀ k d, (callGraph fetchAt).delays[k]? = some d → d = 2 ^ (k + 1) * 200) := by
  have h := callGraphGo_schedule fetchAt MAX_RETRIES 1 [] none (by omega)
    (by unfold MAX_RETRIES; omega) (by omega) rfl
  have ht : callGraph fetchAt = callGraphGo fetchAt 1 MAX_RETRIES [] none := rfl
  rw [← ht] at h
  rcases h with ⟨hle, hsched⟩
  refine ⟨hle, hsched, ?_, ?_⟩
  · rw [hsched, backoffSchedule_length]
  · intro k d hd
    rw [hsched] at hd
    exact backoffSchedule_getElem _ k d hd

/-- Witness for C2 (amended): on the always-500 upstream the theorem
yields the concrete schedule; the delay at index 0 (before attempt 2) is
2^1 * 200 = 400ms. -/
theorem callGraph_backoff_schedule_witness :
    (callGraph always500).attempts ≤ MAX_RETRIES ∧ (400 : Nat) = 2 ^ (0 + 1) * 200 := by
  refine ⟨(callGraph_backoff_schedule always500).1, ?_⟩
  exact (callGraph_backoff_schedule always500).2.2.2 0 400 rfl

/-- Claim C3: `extractGraphError` classifies a non-2xx response as
retryable exactly when the body's `error.is_transient` flag is truthy, or
the HTTP status is at least 500, or the application error code is in the
transient set hard-coded in the source (1, 2 or 4); otherwise it is
terminal. -/
theorem extractGraphError_classification (status : Nat) (body : GraphErrorResponse) :
    (extractGraphError status body).retryable = true ↔
      ((body.error.bind fun e => e.is_transient) = some true ∨
       500 ≤ status ∨
       (∃ c, (body.error.bind fun e => e.code) = some c ∧ c ∈ ([1, 2, 4] : List Int))) := by
  rcases body with ⟨err⟩
  rcases err with _ | ⟨msg, code, trans⟩
  · simp [extractGraphError, transientTruthy]
  · rcases trans with _ | b
    · simp [extractGraphError, transientTruthy]
      constructor
      · rintro (((hs | hc) | hc) | hc)
        · exact Or.inl hs
        · exact Or.inr ⟨1, hc, Or.inl rfl⟩
        · exact Or.inr ⟨2, hc, Or.inr (Or.inl rfl)⟩
        · exact Or.inr ⟨4, hc, Or.inr (Or.inr rfl)⟩
      · rintro (hs | ⟨c, hc, (rfl | rfl | rfl)⟩)
        · exact Or.inl (Or.inl (Or.inl hs))
        · exact Or.inl (Or.inl (Or.inr hc))
        · exact Or.inl (Or.inr hc)
        · exact Or.inr hc
    · simp [extractGraphError, transientTruthy]
      constructor
      · rintro ((((hb | hs) | hc) | hc) | hc)
        · exact Or.inl hb
        · exact Or.inr (Or.inl hs)
        · exact Or.inr (Or.inr ⟨1, hc, Or.inl rfl⟩)
        · exact Or.inr (Or.inr ⟨2, hc, Or.inr (Or.inl rfl)⟩)
        · exact Or.inr (Or.inr ⟨4, hc, Or.inr (Or.inr rfl)⟩)
      · rintro (hb | hs | ⟨c, hc, (rfl | rfl | rfl)⟩)
        · exact Or.inl (Or.inl (Or.inl (Or.inl hb)))
        · exact Or.inl (Or.inl (Or.inl (Or.inr hs)))
        · exact Or.inl (Or.inl (Or.inr hc))
        · exact Or.inl (Or.inr hc)
        · exact Or.inr hc

/-- Witness for C3: a 503 with an empty body is retryable via the status
disjunct; a 400 with `is_transient` absent and code 100 reaches no
disjunct, hence is terminal. -/
theorem extractGraphError_classification_witness :
    (extractGraphError 503 { error := none }).retryable = true ∧
    (extractGraphError 400
      { error := some { message := some "bad", code := some 100,
                        is_transient := some false } }).retryable ≠ true := by
  constructor
  · exact (extractGraphError_classification 503 { error := none }).mpr
      (Or.inr (Or.inl (by omega)))
  · intro h
    have := (extractGraphError_classification 400
      { error := some { message := some "bad", code := some 100,
                        is_transient := some false } }).mp h
    rcases this with h1 | h2 | ⟨c, hc, hmem⟩
    · simp at h1
    · omega
    · simp at hc
      subst hc
      simp at hmem

/-- Claim C4: a first attempt whose upstream error is classified terminal
makes `callGraph` perform exactly one attempt, insert no backoff delay,
and surface that extracted error immediately. -/
theorem callGraph_terminal_single_attempt (fetchAt : Nat → FetchOutcome)
    (status : Nat) (body : GraphErrorResponse)
    (h1 : fetchAt 1 = FetchOutcome.httpError status body)
    (hterm : (extractGraphError status body).retryable = false) :
    callGraph fetchAt =
      { attempts := 1, delays := [],
        result := CallResult.graphError (extractGraphError status body) } := by
  have ht : callGraph fetchAt = callGraphGo fetchAt 1 MAX_RETRIES [] none := rfl
  rw [ht]
  unfold MAX_RETRIES
  simp only [callGraphGo, h1, hterm, Bool.false_and, Bool.if_false_left]
  simp

/-- Witness for C4: the terminal 400 response with application code 100
stops after a single attempt with no delay. -/
theorem callGraph_terminal_single_attempt_witness :
    callGraph (fun _ => FetchOutcome.httpError 400
      { error := some { message := some "bad", code := some 100,
                        is_transient := some false } }) =
      { attempts := 1, delays := [],
        result := CallResult.graphError (extractGraphError 400
          { error := some { message := some "bad", code := some 100,
                            is_transient := some false } }) } := by
  exact callGraph_terminal_single_attempt _ 400
    { error := some { message := some "bad", code := some 100,
                      is_transient := some false } } rfl (by decide)

/-- Counterexample to C5 as stated: when all 3 attempts are aborted by the
per-attempt timeout, the surfaced error is the final-attempt timeout
`GraphApiError`, whose `retryable` flag is `false` (it is built as
`attempt < MAX_RETRIES`, which fails on the last attempt) — so the
claim that the exhausted error is "still tagged as retryable/transient,
including timeout-aborted attempts" does not hold. -/
theorem callGraph_timeout_exhaustion_counterexample :
    (callGraph allTimeout).attempts = 3 ∧
    (callGraph allTimeout).result =
      CallResult.graphError
        { message := "Graph API request timed out", status := 504,
          body := none, retryable := false } := by
  exact ⟨rfl, rfl⟩

/-- Claim C5 (amended): exhausting all 3 attempts on retryable failures
surfaces the last observed error as a `GraphApiError`, never collapsed
into an undistinguished non-Graph failure: for upstream responses whose
classification is retryable the surfaced error is the third attempt's
extracted error with its `retryable` flag still `true`; for attempts
aborted by the 30-second timeout the surfaced error is the timeout
`GraphApiError` (status 504), distinguishable from a terminal rejection
by its status and message, but carrying `retryable = false` because the
flag records `attempt < MAX_RETRIES` of the final attempt. -/
theorem callGraph_retry_exhaustion_surfaces_last
    (s1 s2 s3 : Nat) (b1 b2 b3 : GraphErrorResponse)
    (h1 : (extractGraphError s1 b1).retryable = true)
    (h2 : (extractGraphError s2 b2).retryable = true)
    (h3 : (extractGraphError s3 b3).retryable = true) :
    callGraph (fun a =>
        if a = 1 then FetchOutcome.httpError s1 b1
        else if a = 2 then FetchOutcome.httpError s2 b2
        else FetchOutcome.httpError s3 b3) =
      { attempts := 3, delays := [400, 800],
        result := CallResult.graphError (extractGraphError s3 b3) } ∧
    (extractGraphError s3 b3).retryable = true ∧
    callGraph allTimeout =
      { attempts := 3, delays := [400, 800],
        result := CallResult.graphError
          { message := "Graph API request timed out", status := 504,
            body := none, retryable := false } } := by
  refine ⟨?_, h3, rfl⟩
  have ht : callGraph (fun a =>
      if a = 1 then FetchOutcome.httpError s1 b1
      else if a = 2 then FetchOutcome.httpError s2 b2
      else FetchOutcome.httpError s3 b3) =
      callGraphGo (fun a =>
        if a = 1 then FetchOutcome.httpError s1 b1
        else if a = 2 then FetchOutcome.httpError s2 b2
        else FetchOutcome.httpError s3 b3) 1 MAX_RETRIES [] none := rfl
  rw [ht]
  unfold MAX_RETRIES
  simp only [callGraphGo, h1, h2, h3]
  simp [h1, h2, h3, MAX_RETRIES]

/-- Witness for C5 (amended): three HTTP 500 responses exhaust the budget
and surface the third 500 error still flagged retryable. -/
theorem callGraph_retry_exhaustion_surfaces_last_witness :
    callGraph (fun a =>
        if a = 1 then FetchOutcome.httpError 500 { error := none }
        else if a = 2 then FetchOutcome.httpError 500 { error := none }
        else FetchOutcome.httpError 500 { error := none }) =
      { attempts := 3, delays := [400, 800],
        result := CallResult.graphError
          (extractGraphError 500 { error := none }) } ∧
    (extractGraphError 500 { error := none }).retryable = true := by
  have h := callGraph_retry_exhaustion_surfaces_last 500 500 500
    { error := none } { error := none } { error := none }
    (by decide) (by decide) (by decide)
  exact ⟨h.1, h.2.1⟩

/-- Counterexample to C6 as stated: a cached record whose `expiresAt` is
present but zero is stale under the claim's freshness test (`expiresAt`
is not absent, and `now < expiresAt*1000 − 60s` fails at `now = 10^9`),
yet the code returns it from cache with no fetch, because the guard
`!cached.expiresAt` treats the JS-falsy value 0 like an absent expiry. -/
theorem ensurePageAccessToken_zero_expiry_counterexample :
    ensurePageAccessToken (some staleZeroRecord) 1000000000 [] "p1" =
      { fetches := 0, saved := none, result := Except.ok staleZeroRecord } ∧
    staleZeroRecord.expiresAt ≠ none ∧
    ¬ ((1000000000 : Int) < staleZeroRecord.expiresAt.getD 0 * 1000 - 60000) := by
  exact ⟨rfl, by decide, by decide⟩

/-- Claim C6 (amended): `ensurePageAccessToken` returns the cached derived
page credential exactly when a cache entry exists and is not stale — its
`expiresAt` is absent or zero (JS-falsy), or `now < expiresAt*1000 − 60s`
in milliseconds; otherwise it performs exactly one managed-pages fetch,
throws the `not_found` `ToolError` when the page id is absent from the
list, and otherwise stores and returns a freshly derived credential
built from the listed page. -/
theorem ensurePageAccessToken_spec (cached : Option PageTokenRecord) (now : Int)
    (pages : List PageEntry) (pageId : String) :
    (∀ c, cached = some c →
      (intTruthy c.expiresAt = false ∨
        (∃ e, c.expiresAt = some e ∧ now < e * 1000 - 60000)) →
      ensurePageAccessToken cached now pages pageId =
        { fetches := 0, saved := none, result := Except.ok c }) ∧
    ((cached = none ∨
        (∃ c, cached = some c ∧ intTruthy c.expiresAt = true ∧
          (∀ e, c.expiresAt = some e → e * 1000 - 60000 ≤ now))) →
      ((ensurePageAccessToken cached now pages pageId).fetches = 1 ∧
       (pages.find? (fun item => item.id = pageId) = none →
         ensurePageAccessToken cached now pages pageId =
           { fetches := 1, saved := none,
             result := Except.error
               { code := "not_found",
                 message := "The requested Page is not managed by the authorized user." } }) ∧
       (∀ page, pages.find? (fun item => item.id = pageId) = some page →
         ensurePageAccessToken cached now pages pageId =
           { fetches := 1,
             saved := some { pageId := page.id, accessToken := page.access_token,
                             pageName := some page.name, expiresAt := none,
                             obtainedAt := now },
             result := Except.ok { pageId := page.id, accessToken := page.access_token,
                                   pageName := some page.name, expiresAt := none,
                                   obtainedAt := now } }))) := by
  constructor
  · rintro c rfl hfresh
    rcases hfresh with hfalsy | ⟨e, he, hlt⟩
    · simp [ensurePageAccessToken, hfalsy]
    · by_cases h0 : e = 0
      · subst h0
        have hfalsy : intTruthy c.expiresAt = false := by
          rw [he]
          simp [intTruthy]
        simp [ensurePageAccessToken, hfalsy]
      · have hT : intTruthy (some e) = true := by
          simp [intTruthy, h0]
        have hcond : e * 1000 > now + 60000 := by omega
        simp [ensurePageAccessToken, he, hT, hcond]
  · intro hstale
    have hfetch : ensurePageAccessToken cached now pages pageId =
        ensurePageAccessToken.ensureFetch now pages pageId := by
      rcases hstale with rfl | ⟨c, rfl, htruthy, hle⟩
      · rfl
      · rcases he : c.expiresAt with _ | e
        · rw [he] at htruthy
          simp [intTruthy] at htruthy
        · have hT : intTruthy (some e) = true := by
            rw [← he]
            exact htruthy
          have hcond : ¬ (e * 1000 > now + 60000) := by
            have := hle e he
            omega
          simp [ensurePageAccessToken, he, hT, hcond]
    rw [hfetch]
    refine ⟨?_, ?_, ?_⟩
    · unfold ensurePageAccessToken.ensureFetch
      rcases hfind : pages.find? (fun item => item.id = pageId) with _ | page <;>
        simp [hfind]
    · intro hfind
      unfold ensurePageAccessToken.ensureFetch
      rw [hfind]
    · intro page hfind
      unfold ensurePageAccessToken.ensureFetch
      rw [hfind]

/-- Witness for C6 (amended): a fresh cached record (expiry far beyond the
60s margin) is returned without a fetch, and with an empty cache the page
is derived from the fetched list (or `not_found` when absent). -/
theorem ensurePageAccessToken_spec_witness :
    ensurePageAccessToken
        (some { pageId := "p1", accessToken := "tok", pageName := none,
                expiresAt := some 2000000, obtainedAt := 0 })
        1000000 [] "p1" =
      { fetches := 0, saved := none,
        result := Except.ok { pageId := "p1", accessToken := "tok", pageName := none,
                              expiresAt := some 2000000, obtainedAt := 0 } } ∧
    ensurePageAccessToken none 1000000
        [{ id := "p1", name := "Page One", access_token := "ptok" }] "p1" =
      { fetches := 1,
        saved := some { pageId := "p1", accessToken := "ptok",
                        pageName := some "Page One", expiresAt := none,
                        obtainedAt := 1000000 },
        result := Except.ok { pageId := "p1", accessToken := "ptok",
                              pageName := some "Page One", expiresAt := none,
                              obtainedAt := 1000000 } } ∧
    ensurePageAccessToken none 1000000 [] "p2" =
      { fetches := 1, saved := none,
        result := Except.error
          { code := "not_found",
            message := "The requested Page is not managed by the authorized user." } } := by
  refine ⟨?_, ?_, ?_⟩
  · exact (ensurePageAccessToken_spec
      (some { pageId := "p1", accessToken := "tok", pageName := none,
              expiresAt := some 2000000, obtainedAt := 0 }) 1000000 [] "p1").1 _ rfl
      (Or.inr ⟨2000000, rfl, by omega⟩)
  · exact ((ensurePageAccessToken_spec none 1000000
      [{ id := "p1", name := "Page One", access_token := "ptok" }] "p1").2
      (Or.inl rfl)).2.2 _ rfl
  · exact ((ensurePageAccessToken_spec none 1000000 [] "p2").2 (Or.inl rfl)).2.1 rfl

/-- Claim C7: once the authorization-code exchange has yielded an access
token, a failing opportunistic long-lived upgrade can never fail the
overall exchange — the short-lived token, token type and expiry from the
original exchange are still returned. -/
theorem exchangeCodeForToken_upgrade_failure_swallowed
    (now : Int) (exchangeResponse upgradeResponse : TokenHttpResponse)
    (hok : exchangeResponse.ok = true)
    (htok : strTruthy exchangeResponse.data.access_token = true)
    (hfail : ∃ msg, exchangeLongLivedToken now upgradeResponse = Except.error msg) :
    exchangeCodeForToken true now exchangeResponse upgradeResponse =
      Except.ok { accessToken := exchangeResponse.data.access_token.getD ""
                  tokenType := exchangeResponse.data.token_type
                  expiresAt := expiresAtOf now exchangeResponse.data } := by
  rcases hfail with ⟨msg, hfail⟩
  simp [exchangeCodeForToken, hok, htok, hfail]

/-- Witness for C7, following the spec's example scenario: the exchange
returns `{access_token: "T1", token_type: "bearer", expires_in: 3600}`;
the upgrade call answers non-ok and its failure is swallowed, so the
result is token `T1` with expiry `now/1000 + 3600` seconds. -/
theorem exchangeCodeForToken_upgrade_failure_swallowed_witness :
    exchangeCodeForToken true 1700000000000
        { ok := true, status := 200,
          data := { access_token := some "T1", token_type := some "bearer",
                    expires_in := some 3600 } }
        { ok := false, status := 500,
          data := { access_token := none, token_type := none, expires_in := none } } =
      Except.ok { accessToken := "T1", tokenType := some "bearer",
                  expiresAt := some 1700003600 } := by
  have h := exchangeCodeForToken_upgrade_failure_swallowed 1700000000000
    { ok := true, status := 200,
      data := { access_token := some "T1", token_type := some "bearer",
                expires_in := some 3600 } }
    { ok := false, status := 500,
      data := { access_token := none, token_type := none, expires_in := none } }
    rfl (by decide) ⟨"Could not exchange token", rfl⟩
  rw [h]
  rfl

/-- Claim C8: an OAuth authorization state is consumed at most once — when
`consumeOAuthState` returns a stored record, a second call on the
resulting store (with no intervening store for that key) observes absence
and returns null. -/
theorem consumeOAuthState_at_most_once (kv : KVStore OAuthStateRecord)
    (state : String) (record : OAuthStateRecord)
    (h : (consumeOAuthState kv state).1 = some record) :
    (consumeOAuthState (consumeOAuthState kv state).2 state).1 = none := by
  rcases hk : kv ("oauth:" ++ state) with _ | r
  · exfalso
    have hnone : (consumeOAuthState kv state).1 = none := by
      simp [consumeOAuthState, hk]
    rw [hnone] at h
    cases h
  · have h2 : (consumeOAuthState kv state).2 = kvDelete kv ("oauth:" ++ state) := by
      simp [consumeOAuthState, hk]
    have hdel : kvDelete kv ("oauth:" ++ state) ("oauth:" ++ state) = none := by
      simp [kvDelete]
    rw [h2]
    simp [consumeOAuthState, hdel]

/-- Witness for C8: storing a state and consuming it twice — the first
consumption returns the record, the second observes absence. -/
theorem consumeOAuthState_at_most_once_witness :
    (consumeOAuthState
      (consumeOAuthState
        (storeOAuthState (fun _ => none) "s1"
          { codeVerifier := "v1", createdAt := 0, redirectUri := "https://cb" }) "s1").2
      "s1").1 = none := by
  exact consumeOAuthState_at_most_once _ "s1"
    { codeVerifier := "v1", createdAt := 0, redirectUri := "https://cb" } rfl

/-- Helper: any operation on an already-closed session leaves the state
unchanged — nothing is written and the cleanup does not run again. -/
theorem sseStep_closed (st : SSEState) (op : SSEOp) (h : st.closed = true) :
    sseStep st op = st := by
  cases op <;> simp [sseStep, h]

/-- Helper: a closed session absorbs every further operation sequence. -/
theorem sseFoldl_closed (ops : List SSEOp) :
    ∀ st : SSEState, st.closed = true → List.foldl sseStep st ops = st := by
  induction ops with
  | nil => intro st _; rfl
  | cons op rest ih =>
    intro st h
    rw [List.foldl_cons, sseStep_closed st op h]
    exact ih st h

/-- Helper: from an open state, the final cleanup count is the starting
count plus one exactly when some close or cancel occurs in the sequence. -/
theorem sseFoldl_cleanups (ops : List SSEOp) :
    ∀ st : SSEState, st.closed = false →
      (List.foldl sseStep st ops).cleanups =
        (if ops.any isCloseOrCancel then st.cleanups + 1 else st.cleanups) := by
  induction ops with
  | nil => intro st _; rfl
  | cons op rest ih =>
    intro st h
    rw [List.foldl_cons]
    cases op with
    | send event data =>
      rw [List.any_cons]
      have hstep : sseStep st (SSEOp.send event data) =
          { st with frames := st.frames ++ [frameEvent event data] } := by
        simp [sseStep, h]
      rw [hstep]
      rw [ih { st with frames := st.frames ++ [frameEvent event data] } h]
      simp [isCloseOrCancel]
    | comment text =>
      rw [List.any_cons]
      have hstep : sseStep st (SSEOp.comment text) =
          { st with frames := st.frames ++ [": " ++ text ++ "\n\n"] } := by
        simp [sseStep, h]
      rw [hstep]
      rw [ih { st with frames := st.frames ++ [": " ++ text ++ "\n\n"] } h]
      simp [isCloseOrCancel]
    | close =>
      have hstep : sseStep st SSEOp.close =
          { st with closed := true, cleanups := st.cleanups + 1,
                    streamClosed := true } := by
        simp [sseStep, h]
      rw [hstep, sseFoldl_closed rest _ rfl]
      simp [isCloseOrCancel]
    | cancel =>
      have hstep : sseStep st SSEOp.cancel =
          { st with closed := true, cleanups := st.cleanups + 1 } := by
        simp [sseStep, h]
      rw [hstep, sseFoldl_closed rest _ rfl]
      simp [isCloseOrCancel]

/-- Claim C9: over any interleaving of sends, comments, closes and
cancellations on a fresh session, the registered cleanup runs exactly
once when any close or cancel occurs (and never otherwise); the first
close or cancel transitions the session to closed and runs the cleanup,
and on a closed session every operation is a no-op that writes nothing. -/
theorem sse_cleanup_exactly_once (ops : List SSEOp) :
    (∀ st op, st.closed = true → sseStep st op = st) ∧
    (∀ st op, st.closed = false → isCloseOrCancel op = true →
      (sseStep st op).closed = true ∧ (sseStep st op).cleanups = st.cleanups + 1 ∧
      (sseStep st op).frames = st.frames) ∧
    (sseRun ops).cleanups = (if ops.any isCloseOrCancel then 1 else 0) := by
  refine ⟨fun st op h => sseStep_closed st op h, ?_, ?_⟩
  · intro st op h hop
    cases op <;> simp [isCloseOrCancel] at hop <;> simp [sseStep, h]
  · have h := sseFoldl_cleanups ops initialSSEState rfl
    rw [sseRun, h]
    rfl

/-- Witness for C9: a concrete interleaving — send, close, a second close,
a cancel and a post-close send — runs the cleanup exactly once; a closed
state absorbs a send; a fresh close increments the cleanup count. -/
theorem sse_cleanup_exactly_once_witness :
    (sseRun [SSEOp.send "ready" "ok", SSEOp.close, SSEOp.close,
             SSEOp.cancel, SSEOp.send "late" "x"]).cleanups = 1 ∧
    sseStep { closed := true, frames := [], cleanups := 1, streamClosed := true }
        (SSEOp.send "e" "d") =
      { closed := true, frames := [], cleanups := 1, streamClosed := true } ∧
    (sseStep initialSSEState SSEOp.cancel).cleanups = 1 := by
  refine ⟨?_, ?_, ?_⟩
  · have h := (sse_cleanup_exactly_once
      [SSEOp.send "ready" "ok", SSEOp.close, SSEOp.close,
       SSEOp.cancel, SSEOp.send "late" "x"]).2.2
    rw [h]
    rfl
  · exact (sse_cleanup_exactly_once []).1 _ (SSEOp.send "e" "d") rfl
  · exact ((sse_cleanup_exactly_once []).2.1 initialSSEState SSEOp.cancel rfl rfl).2.1

/-- Claim C10: every record `ensurePageAccessToken` itself saves carries no
`expiresAt`, so `savePageToken` stores it with only the default 24-hour
TTL (no absolute expiration), and the staleness check classifies any such
cached record as fresh forever: a later call for that page returns the
cached record with no fetch, never exercising the 60-second margin. -/
theorem pageToken_cache_never_stale (cached : Option PageTokenRecord) (now : Int)
    (pages : List PageEntry) (pageId : String) :
    (∀ r, (ensurePageAccessToken cached now pages pageId).saved = some r →
      r.expiresAt = none ∧
      savePageTokenOptions r =
        { expiration := none, expirationTtl := some (24 * 60 * 60) }) ∧
    (∀ c : PageTokenRecord, c.expiresAt = none →
      ∀ now' : Int, ∀ pages' : List PageEntry,
        ensurePageAccessToken (some c) now' pages' pageId =
          { fetches := 0, saved := none, result := Except.ok c }) := by
  constructor
  · intro r hr
    have hexp : r.expiresAt = none := by
      have hcore : ∀ t : EnsureTrace,
          t = ensurePageAccessToken.ensureFetch now pages pageId →
          ∀ r', t.saved = some r' → r'.expiresAt = none := by
        intro t ht r' hr'
        rw [ht] at hr'
        unfold ensurePageAccessToken.ensureFetch at hr'
        rcases hfind : pages.find? (fun item => item.id = pageId) with _ | page <;>
          rw [hfind] at hr'
        · simp at hr'
        · simp at hr'
          rw [← hr']
      rcases cached with _ | c
      · exact hcore _ rfl r hr
      · by_cases hfresh :
          ((!intTruthy c.expiresAt) || decide (c.expiresAt.getD 0 * 1000 > now + 60000)) = true
        · rw [show ensurePageAccessToken (some c) now pages pageId =
              { fetches := 0, saved := none, result := Except.ok c } from by
            simp [ensurePageAccessToken, hfresh]] at hr
          simp at hr
        · rw [show ensurePageAccessToken (some c) now pages pageId =
              ensurePageAccessToken.ensureFetch now pages pageId from by
            simp only [ensurePageAccessToken]
            rw [if_neg (by simpa using hfresh)]] at hr
          exact hcore _ rfl r hr
    refine ⟨hexp, ?_⟩
    simp [savePageTokenOptions, hexp, intTruthy]
  · intro c hc now' pages'
    have hfalsy : intTruthy c.expiresAt = false := by
      rw [hc]
      rfl
    simp [ensurePageAccessToken, hfalsy]

/-- Witness for C10: deriving the token for a listed page stores a record
without `expiresAt` under the 24-hour TTL, and a later call for that page
finds the cached record always fresh, with zero fetches. -/
theorem pageToken_cache_never_stale_witness :
    ((ensurePageAccessToken none 1000
        [{ id := "p1", name := "Page One", access_token := "ptok" }] "p1").saved.getD
        staleZeroRecord).expiresAt = none ∧
    savePageTokenOptions { pageId := "p1", accessToken := "ptok",
                           pageName := some "Page One", expiresAt := none,
                           obtainedAt := 1000 } =
      { expiration := none, expirationTtl := some (24 * 60 * 60) } ∧
    ensurePageAccessToken
        (some { pageId := "p1", accessToken := "ptok", pageName := some "Page One",
                expiresAt := none, obtainedAt := 1000 }) 999999999999 [] "p1" =
      { fetches := 0, saved := none,
        result := Except.ok { pageId := "p1", accessToken := "ptok",
                              pageName := some "Page One", expiresAt := none,
                              obtainedAt := 1000 } } := by
  refine ⟨?_, ?_, ?_⟩
  · have h := (pageToken_cache_never_stale none 1000
      [{ id := "p1", name := "Page One", access_token := "ptok" }] "p1").1
      { pageId := "p1", accessToken := "ptok", pageName := some "Page One",
        expiresAt := none, obtainedAt := 1000 } rfl
    rw [show (ensurePageAccessToken none 1000
        [{ id := "p1", name := "Page One", access_token := "ptok" }] "p1").saved =
        some { pageId := "p1", accessToken := "ptok", pageName := some "Page One",
               expiresAt := none, obtainedAt := 1000 } from rfl]
    exact h.1
  · exact ((pageToken_cache_never_stale none 1000
      [{ id := "p1", name := "Page One", access_token := "ptok" }] "p1").1
      { pageId := "p1", accessToken := "ptok", pageName := some "Page One",
        expiresAt := none, obtainedAt := 1000 } rfl).2
  · exact (pageToken_cache_never_stale none 0 [] "p1").2
      { pageId := "p1", accessToken := "ptok", pageName := some "Page One",
        expiresAt := none, obtainedAt := 1000 } rfl 999999999999 []

end MCPFB
